import Mathlib

/-!
Verification of the Fishing Assistant dashboard card
(`custom_components/fishing_assistant/www/fishing-assistant-card.js`, plus a
legacy revision of the same card kept in the repository).

The JavaScript is shallowly embedded: JS numbers are modelled as `ℚ`
(`Math.round` becomes `jsRound`), absent object fields become `Option`,
JS `Set` becomes `Finset String`, and the mutable card fields
`_expandedDays` / `_showDetails` become an explicit `CardState` record
threaded through pure transition functions.
-/

namespace FishingAssistant

/-- JS `Math.round`: rounds half toward positive infinity.
`Rat.floor` is used directly so that concrete values reduce in the kernel. -/
def jsRound (q : ℚ) : ℤ := Rat.floor (q + 1/2)

/-- JS string short-circuit `a || b`: an absent or empty string is falsy. -/
def jsStrOr (a : Option String) (b : String) : String :=
  match a with
  | none => b
  | some s => if s = "" then b else s

/-- A raw `safety` attribute value: either a bare status string or an object
`{status, reasons}` (fishing-assistant-card.js lines 159, 168-176). -/
inductive SafetyVal where
  | str (status : String)
  | obj (status : String) (reasons : List String)
deriving DecidableEq

/-- One raw period record of the array-shape forecast
(fields read by `renderForecast`, fishing-assistant-card.js lines 922-947). -/
structure PeriodRec where
  score : Option ℚ := none
  safety : Option SafetyVal := none
  tide_state : Option String := none
deriving DecidableEq

/-- One raw day record of the array-shape forecast
(fields read by `renderForecast`, fishing-assistant-card.js lines 898-910). -/
structure DayRec where
  date : Option String := none
  datetime : Option String := none
  day_name : Option String := none
  score : Option ℚ := none
  rating : Option String := none
  safety : Option SafetyVal := none
  periods : Option (List (String × PeriodRec)) := none
deriving DecidableEq

/-- One raw period record of the legacy mapping-shape forecast
(fields read by the legacy `renderForecast`, src/unnamed/part_000 lines 800-806). -/
structure LegacyPeriod where
  score : ℚ
  safety : Option String := none
  tide_state : Option String := none
deriving DecidableEq

/-- One raw day record of the legacy mapping-shape forecast
(src/unnamed/part_000 lines 766-771). -/
structure LegacyDay where
  day_name : String
  daily_avg_score : ℚ
  periods : List (String × LegacyPeriod)
deriving DecidableEq

/-- The raw `forecast` attribute: either an ordered array of day records or a
mapping from date string to a legacy day record (modelled as an ordered
association list, matching JS object key order). -/
inductive Forecast where
  | arr (days : List DayRec)
  | map (entries : List (String × LegacyDay))
deriving DecidableEq

/-- `getScoreColor` (fishing-assistant-card.js lines 133-137). -/
def getScoreColor (score : ℤ) : String :=
  if score ≥ 70 then "#4caf50"
  else if score ≥ 40 then "#ff9800"
  else "#f44336"

/-- `getScoreLabel` (fishing-assistant-card.js lines 139-143). -/
def getScoreLabel (score : ℤ) : String :=
  if score ≥ 70 then "Excellent"
  else if score ≥ 40 then "Good"
  else "Poor"

/-- The score tier on the 0-100 integer scale, as named by the CSS classes
the card attaches (`excellent` / `good` / `poor`). -/
def scoreTier (score_pct : ℤ) : String :=
  if score_pct ≥ 70 then "excellent"
  else if score_pct ≥ 40 then "good"
  else "poor"

/-- `getScoreClass` (fishing-assistant-card.js lines 884-889): takes the raw
0-1 fraction, rounds to a percentage, then classifies. -/
def getScoreClass (score : ℚ) : String :=
  let scoreValue := jsRound (score * 100)
  if scoreValue ≥ 70 then "excellent"
  else if scoreValue ≥ 40 then "good"
  else "poor"

/-- Status extraction via the typeof-object test on `safety`
(fishing-assistant-card.js line 892); an absent value stays absent. -/
def safetyStatusOf : Option SafetyVal → Option String
  | none => none
  | some (.str s) => some s
  | some (.obj st _) => some st

/-- `getSafetyClass` (fishing-assistant-card.js lines 891-896). -/
def getSafetyClass (safety : Option SafetyVal) : String :=
  match safetyStatusOf safety with
  | some "unsafe" => "unsafe"
  | some "caution" => "caution"
  | _ => ""

/-- A normalized period as computed per cell by `renderForecast`
(fishing-assistant-card.js lines 926-929). -/
structure CanonPeriod where
  name : String
  score_pct : ℤ
  score_class : String
  safety_class : String
deriving DecidableEq

/-- A normalized day as computed by `renderForecast`
(fishing-assistant-card.js lines 898-910). -/
structure CanonDay where
  day_id : String
  avg_score_pct : ℤ
  periods : List CanonPeriod
deriving DecidableEq

/-- The fixed period order (fishing-assistant-card.js line 910). -/
def periodOrder : List String := ["morning", "afternoon", "evening", "night"]

/-- Per-period normalization of the array shape: `Math.round((period.score || 0) * 100)`,
`getScoreClass(period.score || 0)`, `getSafetyClass(period.safety)`
(fishing-assistant-card.js lines 926-928). -/
def canonPeriodOfArr (name : String) (p : PeriodRec) : CanonPeriod :=
  { name := name
    score_pct := jsRound ((p.score.getD 0) * 100)
    score_class := getScoreClass (p.score.getD 0)
    safety_class := getSafetyClass p.safety }

/-- Per-day normalization of the array shape: `day.date || day.datetime || index.toString()`,
`Math.round((day.score || 0) * 100)`, and one cell per period name present in
`day.periods || {}` in the fixed order (fishing-assistant-card.js lines 898-924). -/
def canonDayOfArr (index : ℕ) (day : DayRec) : CanonDay :=
  { day_id := jsStrOr day.date (jsStrOr day.datetime (toString index))
    avg_score_pct := jsRound ((day.score.getD 0) * 100)
    periods := periodOrder.filterMap fun name =>
      ((day.periods.getD []).lookup name).map (canonPeriodOfArr name) }

/-- The array-shape normalization performed by `renderForecast`:
`forecast.slice(0, maxDays)` then per-day conversion with the index within the
slice (fishing-assistant-card.js lines 869, 898). -/
def normalizeArray (forecast : List DayRec) (maxDays : ℕ) : List CanonDay :=
  (forecast.take maxDays).enum.map fun e => canonDayOfArr e.1 e.2

/-- A normalized period of the legacy mapping shape
(src/unnamed/part_000 lines 800-802). -/
structure CanonPeriodL where
  name : String
  score_pct : ℤ
  score_class : String
deriving DecidableEq

/-- A normalized day of the legacy mapping shape
(src/unnamed/part_000 lines 764-771, 785-788). -/
structure CanonDayL where
  day_id : String
  day_name : String
  avg_score_pct : ℤ
  periods : List CanonPeriodL
deriving DecidableEq

/-- Per-period normalization of the legacy mapping shape:
`Math.round(period.score * 10)` and the inline tier classification
(src/unnamed/part_000 lines 801-802). -/
def canonPeriodLegacy (key : String) (p : LegacyPeriod) : CanonPeriodL :=
  { name := key
    score_pct := jsRound (p.score * 10)
    score_class :=
      if jsRound (p.score * 10) ≥ 70 then "excellent"
      else if jsRound (p.score * 10) ≥ 40 then "good"
      else "poor" }

/-- Per-entry normalization of the legacy mapping shape: the day id is the
mapping key, `Math.round(day.daily_avg_score * 10)`, and every entry of
`Object.entries(day.periods)` in order (src/unnamed/part_000 lines 766-771, 785-787). -/
def canonDayLegacy (entry : String × LegacyDay) : CanonDayL :=
  { day_id := entry.1
    day_name := entry.2.day_name
    avg_score_pct := jsRound (entry.2.daily_avg_score * 10)
    periods := entry.2.periods.map fun e => canonPeriodLegacy e.1 e.2 }

/-- The legacy mapping-shape normalization performed by the legacy
`renderForecast`: `Object.entries(forecast).slice(0, maxDays)` then per-entry
conversion (src/unnamed/part_000 lines 763-771). -/
def renderForecastLegacy (forecast : List (String × LegacyDay)) (maxDays : ℕ) :
    List CanonDayL :=
  (forecast.take maxDays).map canonDayLegacy

/-- The card configuration after default merging (fishing-assistant-card.js
lines 29-37). -/
structure CardConfig where
  entity : String
  show_forecast : Bool
  show_current_conditions : Bool
  compact_mode : Bool
  forecast_days : ℕ
  expand_forecast : Bool
  show_component_scores : Bool
deriving DecidableEq

/-- The part of the entity snapshot the interaction logic reads. -/
structure EntitySnapshot where
  state : String
  forecast : Option Forecast
deriving DecidableEq

/-- The card instance state: the mutable fields `_expandedDays` (a JS `Set`)
and `_showDetails`, together with the configuration and the last snapshot the
card holds. -/
structure CardState where
  expandedDays : Finset String
  showDetails : Option String
  config : CardConfig
  entity : Option EntitySnapshot
deriving DecidableEq

/-- `toggleDay` (fishing-assistant-card.js lines 56-63): flips membership of
`date` in `_expandedDays`. The re-render it triggers does not change state. -/
def toggleDay (s : CardState) (date : String) : CardState :=
  if date ∈ s.expandedDays then
    { s with expandedDays := s.expandedDays.erase date }
  else
    { s with expandedDays := insert date s.expandedDays }

/-- The compound popup key `` `${dayDate}-${blockName}` ``
(fishing-assistant-card.js line 67). -/
def detailsKey (dayDate blockName : String) : String :=
  dayDate ++ "-" ++ blockName

/-- `showBlockDetails` (fishing-assistant-card.js lines 65-76): clears
`_showDetails` when the computed key is already active, otherwise sets it. -/
def showBlockDetails (s : CardState) (dayDate blockName : String) : CardState :=
  if s.showDetails = some (detailsKey dayDate blockName) then
    { s with showDetails := none }
  else
    { s with showDetails := some (detailsKey dayDate blockName) }

/-- The guard `forecast.length === 0` of `toggleAllDays`
(fishing-assistant-card.js line 851): on a non-array object `.length` is
`undefined` and `undefined === 0` is false. -/
def forecastLenIsZero : Forecast → Bool
  | .arr days => days.isEmpty
  | .map _ => false

/-- The ids `toggleAllDays` inserts (fishing-assistant-card.js lines 856-860):
`day.date || index.toString()` over the whole array, or every mapping key.
Note: no `datetime` fallback and no truncation here. -/
def allDayIdsForToggle : Forecast → List String
  | .arr days => days.enum.map fun e => jsStrOr e.2.date (toString e.1)
  | .map entries => entries.map Prod.fst

/-- `toggleAllDays` (fishing-assistant-card.js lines 847-864): returns
unchanged when the forecast is absent or has `length === 0`; clears
`_expandedDays` when non-empty; otherwise inserts every id of the full raw
forecast. -/
def toggleAllDays (s : CardState) (forecast : Option Forecast) : CardState :=
  match forecast with
  | none => s
  | some f =>
    if forecastLenIsZero f then s
    else if 0 < s.expandedDays.card then
      { s with expandedDays := ∅ }
    else
      { s with expandedDays :=
          (allDayIdsForToggle f).foldl (fun acc d => insert d acc) s.expandedDays }

/-- The render guard for the forecast section
(`config.show_forecast && attrs.forecast && attrs.forecast.length > 0`,
fishing-assistant-card.js line 806): on a mapping `.length` is `undefined`
and `undefined > 0` is false. -/
def showForecastSection (show_forecast : Bool) (forecast : Option Forecast) : Bool :=
  show_forecast &&
    match forecast with
    | none => false
    | some (.arr days) => !days.isEmpty
    | some (.map _) => false

/-- The day list produced by the current `renderForecast`
(fishing-assistant-card.js lines 866-869): the early return on an absent or
`length === 0` forecast, and `Array.isArray(forecast) ? forecast.slice(0, maxDays) : []`. -/
def renderForecastDays : Forecast → ℕ → List CanonDay
  | .arr days, maxDays => normalizeArray days maxDays
  | .map _, _ => []

/-- Normalization over the whole render path: an absent forecast is never
passed to `renderForecast`, so it yields no days. -/
def cardNormalize (forecast : Option Forecast) (maxDays : ℕ) : List CanonDay :=
  match forecast with
  | none => []
  | some f => renderForecastDays f maxDays

/-- The observable popup outcome of `updatePopups`
(fishing-assistant-card.js lines 78-97): which `.block-details` element is
displayed and whether the backdrop carries the `active` class. -/
structure PopupView where
  visiblePopup : Option String
  backdropActive : Bool
deriving DecidableEq

/-- `updatePopups` (fishing-assistant-card.js lines 78-97): hides every popup
and deactivates the backdrop, then shows the popup whose
`data-details-key` equals `_showDetails` only when such an element exists in
the rendered tree. -/
def updatePopups (showDetails : Option String) (renderedKeys : List String) : PopupView :=
  match showDetails with
  | none => ⟨none, false⟩
  | some key => if key ∈ renderedKeys then ⟨some key, true⟩ else ⟨none, false⟩

/-- The `data-details-key` values present in the rendered tree: one per
day-and-present-period of the normalized forecast
(fishing-assistant-card.js line 949). -/
def detailKeys (days : List CanonDay) : List String :=
  (days.map fun d => d.periods.map fun p => detailsKey d.day_id p.name).flatten

/-- The `forecast` attribute is absent, an empty array, or an empty mapping. -/
def forecastAbsentOrEmpty (fc : Option Forecast) : Prop :=
  fc = none ∨ fc = some (Forecast.arr []) ∨ fc = some (Forecast.map [])

/-- A default configuration, as merged by `setConfig`
(fishing-assistant-card.js lines 29-37). -/
def cfgDefault : CardConfig :=
  { entity := "sensor.fishing_score"
    show_forecast := true
    show_current_conditions := true
    compact_mode := false
    forecast_days := 5
    expand_forecast := false
    show_component_scores := true }

/-- The freshly constructed card state (fishing-assistant-card.js lines 5-6). -/
def emptyState : CardState :=
  { expandedDays := ∅, showDetails := none, config := cfgDefault, entity := none }

def dayDummy : DayRec := {}

def canonDayDummy : CanonDay := ⟨"", 0, []⟩

section Lemmas

lemma jsRound_eq_floor (q : ℚ) : jsRound q = ⌊q + 1/2⌋ := rfl

lemma jsRound_eq {q : ℚ} {n : ℤ} (h1 : (n : ℚ) ≤ q + 1/2) (h2 : q + 1/2 < (n : ℚ) + 1) :
    jsRound q = n := by
  rw [jsRound_eq_floor]
  exact Int.floor_eq_iff.mpr ⟨h1, h2⟩

lemma jsRound_nonneg {q : ℚ} (h : 0 ≤ q) : 0 ≤ jsRound q := by
  rw [jsRound_eq_floor]
  refine Int.le_floor.mpr ?_
  have hq : (0 : ℚ) ≤ q + 1/2 := by linarith
  exact_mod_cast hq

lemma jsRound_le {q : ℚ} {M : ℤ} (h : q ≤ (M : ℚ)) : jsRound q ≤ M := by
  rw [jsRound_eq_floor]
  have hlt : q + 1/2 < ((M : ℚ) + 1) := by linarith
  have hfl : ⌊q + 1/2⌋ < M + 1 := Int.floor_lt.mpr (by exact_mod_cast hlt)
  omega

lemma foldl_insert_eq (init : Finset String) (l : List String) :
    l.foldl (fun acc d => insert d acc) init = init ∪ l.toFinset := by
  induction l generalizing init with
  | nil => simp
  | cons a t ih =>
    rw [List.foldl_cons, ih, List.toFinset_cons]
    ext x
    simp
    try tauto

end Lemmas

/-- Claim C3: the score-tier classification is total and partitions the 0-100
range exactly at 40 and 70 with no gaps or overlaps; `score_pct ≥ 70` is the
`excellent` tier with color `#4caf50` and label `Excellent`,
`40 ≤ score_pct < 70` the `good` tier with `#ff9800` / `Good`, and
`score_pct < 40` the `poor` tier with `#f44336` / `Poor`; the color and label
functions agree on the tier for every input, and `getScoreClass` classifies a
raw 0-1 score by the same partition after rounding to a percentage. -/
theorem score_tier_partition (n : ℤ) :
    (70 ≤ n → scoreTier n = "excellent" ∧ getScoreColor n = "#4caf50" ∧
      getScoreLabel n = "Excellent") ∧
    (40 ≤ n ∧ n < 70 → scoreTier n = "good" ∧ getScoreColor n = "#ff9800" ∧
      getScoreLabel n = "Good") ∧
    (n < 40 → scoreTier n = "poor" ∧ getScoreColor n = "#f44336" ∧
      getScoreLabel n = "Poor") ∧
    (scoreTier n = "excellent" ↔ 70 ≤ n) ∧
    (scoreTier n = "good" ↔ 40 ≤ n ∧ n < 70) ∧
    (scoreTier n = "poor" ↔ n < 40) ∧
    (getScoreColor n = "#4caf50" ↔ getScoreLabel n = "Excellent") ∧
    (getScoreColor n = "#ff9800" ↔ getScoreLabel n = "Good") ∧
    (getScoreColor n = "#f44336" ↔ getScoreLabel n = "Poor") ∧
    (∀ q : ℚ, getScoreClass q = scoreTier (jsRound (q * 100))) := by
  refine ⟨fun h => ?_, fun h => ?_, fun h => ?_, ?_, ?_, ?_, ?_, ?_, ?_, fun q => rfl⟩ <;>
    (simp only [scoreTier, getScoreColor, getScoreLabel, ge_iff_le]
     split_ifs <;> simp_all <;> omega)

/-- Claim C3 witness: the partition evaluated at 75, 50 and 10. -/
theorem score_tier_partition_witness :
    (scoreTier 75 = "excellent" ∧ getScoreColor 75 = "#4caf50" ∧
      getScoreLabel 75 = "Excellent") ∧
    (scoreTier 50 = "good" ∧ getScoreColor 50 = "#ff9800" ∧
      getScoreLabel 50 = "Good") ∧
    (scoreTier 10 = "poor" ∧ getScoreColor 10 = "#f44336" ∧
      getScoreLabel 10 = "Poor") :=
  ⟨(score_tier_partition 75).1 (by decide),
   (score_tier_partition 50).2.1 (by decide),
   (score_tier_partition 10).2.2.1 (by decide)⟩

/-- Claim C4: `toggleDay` flips the membership of exactly the given day id in
`_expandedDays` (any other id keeps its membership), and applying it twice
with the same day id restores the original expanded-day set. -/
theorem toggleDay_involution (s : CardState) (d : String) :
    (d ∈ (toggleDay s d).expandedDays ↔ d ∉ s.expandedDays) ∧
    (∀ e : String, e ≠ d →
      (e ∈ (toggleDay s d).expandedDays ↔ e ∈ s.expandedDays)) ∧
    (toggleDay (toggleDay s d) d).expandedDays = s.expandedDays := by
  refine ⟨?_, ?_, ?_⟩
  · by_cases h : d ∈ s.expandedDays <;> simp [toggleDay, h]
  · intro e he
    by_cases h : d ∈ s.expandedDays <;>
      simp [toggleDay, h, Finset.mem_erase, Finset.mem_insert, he]
  · by_cases h : d ∈ s.expandedDays
    · simp [toggleDay, h, Finset.insert_erase h]
    · simp [toggleDay, h, Finset.erase_insert h]

/-- Claim C4 witness: toggling day `a` on the fresh state adds it, a second
toggle removes it, and an unrelated id `b` is untouched. -/
theorem toggleDay_involution_witness :
    ("a" ∈ (toggleDay emptyState "a").expandedDays ↔ "a" ∉ emptyState.expandedDays) ∧
    ("b" ∈ (toggleDay emptyState "a").expandedDays ↔ "b" ∈ emptyState.expandedDays) ∧
    (toggleDay (toggleDay emptyState "a") "a").expandedDays = emptyState.expandedDays :=
  ⟨(toggleDay_involution emptyState "a").1,
   (toggleDay_involution emptyState "a").2.1 "b" (by decide),
   (toggleDay_involution emptyState "a").2.2⟩

/-- A state whose active detail key is already `2024-01-01-morning`. -/
def stateActive : CardState :=
  { expandedDays := ∅, showDetails := some "2024-01-01-morning",
    config := cfgDefault, entity := none }

/-- Claim C5 counterexample: when the key for the given pair is already the
active one, two consecutive `showBlockDetails` calls with that same pair leave
the key active again — not absent as the claim states. -/
theorem showBlockDetails_twice_counterexample :
    stateActive.showDetails = some (detailsKey "2024-01-01" "morning") ∧
    (showBlockDetails (showBlockDetails stateActive "2024-01-01" "morning")
        "2024-01-01" "morning").showDetails = some "2024-01-01-morning" := by
  constructor
  · rfl
  · rfl

/-- Claim C5 (amended): `showBlockDetails` computes the compound key, clears
`_showDetails` when the key is already active and otherwise sets exactly that
key, replacing any previously active key (so at most one key is ever active);
two calls with the same pair return the key to absent whenever that key was
not already active before the first call, and restore it to active when it
was. -/
theorem showBlockDetails_toggle (s : CardState) (d p : String) :
    (s.showDetails = some (detailsKey d p) →
      (showBlockDetails s d p).showDetails = none) ∧
    (s.showDetails ≠ some (detailsKey d p) →
      (showBlockDetails s d p).showDetails = some (detailsKey d p)) ∧
    (s.showDetails ≠ some (detailsKey d p) →
      (showBlockDetails (showBlockDetails s d p) d p).showDetails = none) ∧
    (s.showDetails = some (detailsKey d p) →
      (showBlockDetails (showBlockDetails s d p) d p).showDetails = s.showDetails) := by
  by_cases h : s.showDetails = some (detailsKey d p) <;>
    simp [showBlockDetails, h]

/-- Claim C5 witness: from the fresh state (no active key), one call with
`("2024-01-01", "morning")` sets the compound key and a second call clears it. -/
theorem showBlockDetails_toggle_witness :
    (showBlockDetails emptyState "2024-01-01" "morning").showDetails
      = some (detailsKey "2024-01-01" "morning") ∧
    (showBlockDetails (showBlockDetails emptyState "2024-01-01" "morning")
        "2024-01-01" "morning").showDetails = none :=
  ⟨(showBlockDetails_toggle emptyState "2024-01-01" "morning").2.1 (by decide),
   (showBlockDetails_toggle emptyState "2024-01-01" "morning").2.2.1 (by decide)⟩

/-- Claim C7: normalization fails closed — with the `forecast` attribute
absent or empty, the render path yields no canonical days and the forecast
section guard is false for every `show_forecast` setting, so the section is
omitted without an error. -/
theorem normalize_fails_closed (fc : Option Forecast) (maxDays : ℕ)
    (h : forecastAbsentOrEmpty fc) :
    cardNormalize fc maxDays = [] ∧
    ∀ show_forecast : Bool, showForecastSection show_forecast fc = false := by
  rcases h with h | h | h <;> subst h <;>
    exact ⟨by simp [cardNormalize, renderForecastDays, normalizeArray],
           fun sf => by cases sf <;> rfl⟩

/-- Claim C7 witness: a snapshot with no `forecast` attribute yields no days
and the section guard is false even with `show_forecast = true`. -/
theorem normalize_fails_closed_witness :
    cardNormalize none 5 = [] ∧ showForecastSection true none = false :=
  ⟨(normalize_fails_closed none 5 (Or.inl rfl)).1,
   (normalize_fails_closed none 5 (Or.inl rfl)).2 true⟩

/-- Claim C8: when `_showDetails` does not match any rendered
`(day, period)` detail key of the current canonical forecast, `updatePopups`
finishes with no popup displayed and the backdrop inactive. -/
theorem dangling_detail_treated_closed (sd : Option String) (days : List CanonDay)
    (h : ∀ k : String, sd = some k → k ∉ detailKeys days) :
    updatePopups sd (detailKeys days) = ⟨none, false⟩ := by
  cases sd with
  | none => rfl
  | some k => simp [updatePopups, h k rfl]

/-- A one-day canonical forecast used to exercise the dangling-key path. -/
def oneDayCanon : List CanonDay :=
  [⟨"2024-01-02", 50, [⟨"morning", 50, "good", ""⟩]⟩]

/-- Claim C8 witness: an active key referring to a day that is no longer in
the forecast leaves every popup hidden and the backdrop inactive. -/
theorem dangling_detail_treated_closed_witness :
    updatePopups (some "2024-01-01-morning") (detailKeys oneDayCanon)
      = ⟨none, false⟩ :=
  dangling_detail_treated_closed (some "2024-01-01-morning") oneDayCanon
    (by intro k hk; cases hk; decide)

/-- Claim C9: frame property of the two interaction operations — `toggleDay`
changes at most `_expandedDays` (the active detail key, configuration and
entity snapshot are untouched) and `showBlockDetails` changes at most
`_showDetails` (the expanded set, configuration and snapshot are untouched). -/
theorem interaction_frame (s : CardState) (d dd p : String) :
    ((toggleDay s d).showDetails = s.showDetails) ∧
    ((toggleDay s d).config = s.config) ∧
    ((toggleDay s d).entity = s.entity) ∧
    ((showBlockDetails s dd p).expandedDays = s.expandedDays) ∧
    ((showBlockDetails s dd p).config = s.config) ∧
    ((showBlockDetails s dd p).entity = s.entity) := by
  unfold toggleDay showBlockDetails
  split_ifs <;> simp

/-- Claim C10: a missing `score` field defaults to zero — an array-shape day
without a score normalizes to `avg_score_pct = 0`, and a present period
without a score normalizes to `score_pct = 0` with the `poor` tier. -/
theorem missing_score_defaults (i : ℕ) (d : DayRec) (name : String) (p : PeriodRec)
    (hd : d.score = none) (hp : p.score = none) :
    (canonDayOfArr i d).avg_score_pct = 0 ∧
    (canonPeriodOfArr name p).score_pct = 0 ∧
    (canonPeriodOfArr name p).score_class = "poor" := by
  have h0 : jsRound (0 : ℚ) = 0 := jsRound_eq (by norm_num) (by norm_num)
  refine ⟨?_, ?_, ?_⟩
  · simp [canonDayOfArr, hd, h0]
  · simp [canonPeriodOfArr, hp, h0]
  · simp [canonPeriodOfArr, hp, getScoreClass, h0]

/-- Claim C10 witness: the all-defaults day and period records (no score
field) yield `avg_score_pct = 0`, `score_pct = 0` and tier `poor`. -/
theorem missing_score_defaults_witness :
    (canonDayOfArr 0 {}).avg_score_pct = 0 ∧
    (canonPeriodOfArr "morning" {}).score_pct = 0 ∧
    (canonPeriodOfArr "morning" {}).score_class = "poor" :=
  missing_score_defaults 0 {} "morning" {} rfl rfl

/-- The legacy mapping-shape forecast of the specification example:
`{"2024-01-01": {day_name:"Mon", daily_avg_score:7.8, periods:{morning:{score:7.5}}}}`. -/
def exampleLegacy : List (String × LegacyDay) :=
  [("2024-01-01",
    { day_name := "Mon", daily_avg_score := 7.8,
      periods := [("morning", { score := 7.5 })] })]

/-- Claim C1: normalizing a legacy mapping-shape forecast (whose period scores
use the 0-10 legacy scale) produces one canonical day per mapping entry, with
`day_id` the mapping key, `avg_score_pct = round(daily_avg_score * 10)`, and
every period score a 0-100 integer percentage; in particular the example
mapping yields `avg_score_pct = 78` and a morning `score_pct` of 75 on the
0-10 scale. -/
theorem legacy_mapping_normalization
    (forecast : List (String × LegacyDay)) (maxDays : ℕ)
    (hlen : forecast.length ≤ maxDays)
    (hscale : ∀ e ∈ forecast, ∀ q ∈ e.2.periods,
      0 ≤ q.2.score ∧ q.2.score ≤ 10) :
    (renderForecastLegacy forecast maxDays).length = forecast.length ∧
    (renderForecastLegacy forecast maxDays).map (fun c => c.day_id)
      = forecast.map (fun e => e.1) ∧
    (renderForecastLegacy forecast maxDays).map (fun c => c.avg_score_pct)
      = forecast.map (fun e => jsRound (e.2.daily_avg_score * 10)) ∧
    (∀ c ∈ renderForecastLegacy forecast maxDays, ∀ pp ∈ c.periods,
      0 ≤ pp.score_pct ∧ pp.score_pct ≤ 100) ∧
    renderForecastLegacy exampleLegacy 5
      = [⟨"2024-01-01", "Mon", 78, [⟨"morning", 75, "excellent"⟩]⟩] := by
  have htake : forecast.take maxDays = forecast := List.take_of_length_le hlen
  refine ⟨?_, ?_, ?_, ?_, ?_⟩
  · rw [renderForecastLegacy, htake, List.length_map]
  · rw [renderForecastLegacy, htake, List.map_map]
    rfl
  · rw [renderForecastLegacy, htake, List.map_map]
    rfl
  · intro c hc pp hpp
    rw [renderForecastLegacy, htake] at hc
    obtain ⟨e, he, rfl⟩ := List.mem_map.mp hc
    simp only [canonDayLegacy] at hpp
    obtain ⟨q, hq, rfl⟩ := List.mem_map.mp hpp
    obtain ⟨hq0, hq10⟩ := hscale e he q hq
    simp only [canonPeriodLegacy]
    constructor
    · exact jsRound_nonneg (by linarith)
    · exact jsRound_le (M := 100) (by push_cast; linarith)
  · have h78 : jsRound ((7.8 : ℚ) * 10) = 78 := jsRound_eq (by norm_num) (by norm_num)
    have h75 : jsRound ((7.5 : ℚ) * 10) = 75 := jsRound_eq (by norm_num) (by norm_num)
    simp [renderForecastLegacy, canonDayLegacy, canonPeriodLegacy, exampleLegacy,
          h78, h75]

/-- Claim C1 witness: the theorem applied to the example mapping. -/
theorem legacy_mapping_normalization_witness :
    renderForecastLegacy exampleLegacy 5
      = [⟨"2024-01-01", "Mon", 78, [⟨"morning", 75, "excellent"⟩]⟩] :=
  (legacy_mapping_normalization exampleLegacy 5 (by decide)
    (by
      intro e he q hq
      simp only [exampleLegacy, List.mem_singleton] at he
      subst he
      simp only [List.mem_singleton] at hq
      subst hq
      norm_num)).2.2.2.2

/-- An array-shape day record that carries a `datetime` but no `date`. -/
def dayWithDatetime : DayRec := { datetime := some "2024-01-02T06:00" }

/-- Claim C2 counterexample: for a day with no `date` field but a `datetime`
field, `renderForecast` uses the `datetime` as the day id
(`day.date || day.datetime || index.toString()`), not the numeric index `"0"`
the claim prescribes. -/
theorem array_day_id_counterexample :
    dayWithDatetime.date = none ∧
    (normalizeArray [dayWithDatetime] 5).map (fun c => c.day_id)
      = ["2024-01-02T06:00"] ∧
    ("2024-01-02T06:00" : String) ≠ "0" := by
  refine ⟨rfl, by decide, by decide⟩

/-- Access into the normalized list at a valid index reduces to the per-day
conversion of the raw day at the same index. -/
lemma normalizeArray_getD (forecast : List DayRec) (maxDays i : ℕ)
    (hi : i < min maxDays forecast.length) :
    (normalizeArray forecast maxDays).getD i canonDayDummy
      = canonDayOfArr i (forecast.getD i dayDummy) := by
  have hif : i < forecast.length := lt_of_lt_of_le hi (min_le_right _ _)
  have hlen : i < (forecast.take maxDays).length := by
    simpa [List.length_take] using hi
  have hlen2 : i < ((forecast.take maxDays).enum.map
      (fun e => canonDayOfArr e.1 e.2)).length := by simpa using hlen
  rw [normalizeArray, List.getD_eq_getElem _ _ hlen2, List.getElem_map,
    List.getElem_enum, List.getElem_take, List.getD_eq_getElem _ _ hif]

/-- The array-shape forecast of the specification example:
`[{date:"2024-01-01", score:0.82, periods:{morning:{score:0.9}}}]`. -/
def exampleArrayDay : DayRec :=
  { date := some "2024-01-01", score := some 0.82,
    periods := some [("morning", { score := some 0.9 })] }

/-- Claim C2 (amended): each array-shape day normalizes to one canonical day
whose `day_id` is the `date` field, else the `datetime` field, else the
numeric index as a string; `avg_score_pct = round(day.score * 100)` treating
the score as a 0-1 fraction; each present period has `score_pct`
`round(period.score * 100)`; the example input yields exactly one day with
`avg_score_pct = 82` and a single morning period with `score_pct = 90`. -/
theorem normalize_array_shape (forecast : List DayRec) (maxDays i : ℕ)
    (hi : i < min maxDays forecast.length) :
    (normalizeArray forecast maxDays).length = min maxDays forecast.length ∧
    ((normalizeArray forecast maxDays).getD i canonDayDummy).day_id
      = jsStrOr (forecast.getD i dayDummy).date
          (jsStrOr (forecast.getD i dayDummy).datetime (toString i)) ∧
    (∀ q : ℚ, (forecast.getD i dayDummy).score = some q →
      ((normalizeArray forecast maxDays).getD i canonDayDummy).avg_score_pct
        = jsRound (q * 100)) ∧
    (∀ name ∈ periodOrder, ∀ p : PeriodRec,
      ((forecast.getD i dayDummy).periods.getD []).lookup name = some p →
      ∀ q : ℚ, p.score = some q →
        ∃ cp ∈ ((normalizeArray forecast maxDays).getD i canonDayDummy).periods,
          cp.name = name ∧ cp.score_pct = jsRound (q * 100)) ∧
    normalizeArray [exampleArrayDay] 5
      = [⟨"2024-01-01", 82, [⟨"morning", 90, "excellent", ""⟩]⟩] := by
  have hkey := normalizeArray_getD forecast maxDays i hi
  refine ⟨?_, ?_, ?_, ?_, ?_⟩
  · simp [normalizeArray, List.length_take]
  · rw [hkey]
    rfl
  · intro q hq
    rw [hkey]
    simp only [canonDayOfArr]
    rw [hq]
    rfl
  · intro name hname p hp q hq
    rw [hkey]
    have hmem : canonPeriodOfArr name p
        ∈ (canonDayOfArr i (forecast.getD i dayDummy)).periods := by
      simp only [canonDayOfArr, List.mem_filterMap]
      exact ⟨name, hname, by rw [hp]; rfl⟩
    exact ⟨canonPeriodOfArr name p, hmem, rfl, by
      simp only [canonPeriodOfArr]
      rw [hq]
      rfl⟩
  · have h82 : jsRound ((0.82 : ℚ) * 100) = 82 := jsRound_eq (by norm_num) (by norm_num)
    have h90 : jsRound ((0.9 : ℚ) * 100) = 90 := jsRound_eq (by norm_num) (by norm_num)
    simp [normalizeArray, canonDayOfArr, canonPeriodOfArr, exampleArrayDay,
          periodOrder, getScoreClass, getSafetyClass, safetyStatusOf, jsStrOr,
          List.enum, List.enumFrom, h82, h90]

/-- Claim C2 witness: the theorem applied to the example array forecast. -/
theorem normalize_array_shape_witness :
    normalizeArray [exampleArrayDay] 5
      = [⟨"2024-01-01", 82, [⟨"morning", 90, "excellent", ""⟩]⟩] :=
  (normalize_array_shape [exampleArrayDay] 5 0 (by decide)).2.2.2.2

/-- A six-day array-shape forecast, one more day than the default
`forecast_days = 5`. -/
def sixDayForecast : List DayRec :=
  [{ date := some "2024-01-01" }, { date := some "2024-01-02" },
   { date := some "2024-01-03" }, { date := some "2024-01-04" },
   { date := some "2024-01-05" }, { date := some "2024-01-06" }]

/-- Claim C6 counterexample: `toggleAllDays` iterates the full raw forecast,
not the canonical forecast truncated to `max_days`; expanding from the fresh
state on a six-day forecast yields six expanded ids while the canonical
forecast (with the default `forecast_days = 5`) has only five day ids, so the
resulting set is not the set of canonical day ids. -/
theorem toggle_all_counterexample :
    emptyState.expandedDays = ∅ ∧
    (toggleAllDays emptyState (some (Forecast.arr sixDayForecast))).expandedDays.card = 6 ∧
    ((normalizeArray sixDayForecast cfgDefault.forecast_days).map fun c => c.day_id).length = 5 ∧
    (toggleAllDays emptyState (some (Forecast.arr sixDayForecast))).expandedDays ≠
      ((normalizeArray sixDayForecast cfgDefault.forecast_days).map fun c => c.day_id).toFinset := by
  refine ⟨rfl, by decide, by decide, by decide⟩

/-- Claim C6 (amended): when the forecast is present and passes the
`length === 0` check, `toggleAllDays` clears `_expandedDays` whenever any day
is expanded, and otherwise inserts one id per entry of the full raw forecast
(`date` field or numeric index for the array shape, the mapping key for the
mapping shape) without truncating to `max_days`; with an absent or
zero-length forecast the state is unchanged. -/
theorem toggle_all_amended (s : CardState) (f : Forecast) :
    (toggleAllDays s none = s) ∧
    (forecastLenIsZero f = true → toggleAllDays s (some f) = s) ∧
    (forecastLenIsZero f = false → s.expandedDays ≠ ∅ →
      (toggleAllDays s (some f)).expandedDays = ∅) ∧
    (forecastLenIsZero f = false → s.expandedDays = ∅ →
      (toggleAllDays s (some f)).expandedDays = (allDayIdsForToggle f).toFinset) := by
  refine ⟨rfl, ?_, ?_, ?_⟩
  · intro h
    simp [toggleAllDays, h]
  · intro h hne
    have hc : 0 < s.expandedDays.card :=
      Finset.card_pos.mpr (Finset.nonempty_iff_ne_empty.mpr hne)
    simp [toggleAllDays, h, hc]
  · intro h he
    have hc : ¬ 0 < s.expandedDays.card := by simp [he]
    simp [toggleAllDays, h, hc, foldl_insert_eq, he]

/-- A one-day array-shape forecast. -/
def oneDayForecast : Forecast := Forecast.arr [{ date := some "2024-01-01" }]

/-- Claim C6 witness: expanding from the fresh state on a one-day forecast
fills the set with exactly the ids the toggle-all pass computes. -/
theorem toggle_all_amended_witness :
    (toggleAllDays emptyState (some oneDayForecast)).expandedDays
      = (allDayIdsForToggle oneDayForecast).toFinset :=
  (toggle_all_amended emptyState oneDayForecast).2.2.2 rfl rfl

end FishingAssistant
